import Mathlib

/-!
Verification development for the QUIC channel object declared in
include/internal/quic_channel.h. The repository snapshot contains only the
header (type declarations, state constants and documented contracts); the
function bodies live in a quic_channel.c that is not part of the snapshot.
Accordingly the operations below are modelled from the specification's and
the header's documented contracts, and the theorems are stated against that
model.
-/

set_option autoImplicit false

/-- The five lifecycle state constants of the channel, mirroring the
`QUIC_CHANNEL_STATE_*` integer defines of quic_channel.h (values 0..4). -/
def QUIC_CHANNEL_STATE_IDLE : Nat := 0

def QUIC_CHANNEL_STATE_ACTIVE : Nat := 1

def QUIC_CHANNEL_STATE_TERMINATING_CLOSING : Nat := 2

def QUIC_CHANNEL_STATE_TERMINATING_DRAINING : Nat := 3

def QUIC_CHANNEL_STATE_TERMINATED : Nat := 4

/-- Lifecycle state of a channel, one constructor per
`QUIC_CHANNEL_STATE_*` constant of the header. -/
inductive ChannelState where
  | idle
  | active
  | terminatingClosing
  | terminatingDraining
  | terminated
  deriving DecidableEq, Repr

/-- The integer value the header assigns to each lifecycle state. -/
def ChannelState.toNat : ChannelState → Nat
  | .idle => QUIC_CHANNEL_STATE_IDLE
  | .active => QUIC_CHANNEL_STATE_ACTIVE
  | .terminatingClosing => QUIC_CHANNEL_STATE_TERMINATING_CLOSING
  | .terminatingDraining => QUIC_CHANNEL_STATE_TERMINATING_DRAINING
  | .terminated => QUIC_CHANNEL_STATE_TERMINATED

/-- The cause for a connection's termination, mirroring
`QUIC_TERMINATE_CAUSE` of quic_channel.h: a 64-bit error code, the frame
type responsible (0 if not applicable), whether the error code is in the
application (true) or transport (false) space, and whether the cause is a
received CONNECTION_CLOSE frame (remote = true) or a local decision. -/
structure QUIC_TERMINATE_CAUSE where
  error_code : Nat
  frame_type : Nat
  app : Bool
  remote : Bool
  deriving DecidableEq, Repr

/-- A received CONNECTION_CLOSE frame as consumed by
`ossl_quic_channel_on_remote_conn_close`. Modelled from the spec: the frame
carries an error space, an error code and a triggering frame type (the
underlying OSSL_QUIC_FRAME_CONN_CLOSE is declared in quic_wire.h, outside
the snapshot). -/
structure OSSL_QUIC_FRAME_CONN_CLOSE where
  is_app : Bool
  error_code : Nat
  frame_type : Nat
  deriving DecidableEq, Repr

/-- The stream-identifier space is 62 bits wide; the low two bits encode
initiator role and directionality, so ordinals range below 2^60. -/
def streamOrdinalBound : Nat := 2 ^ 60

/-- Modelled from the spec: the channel state visible to the claims.
Mirrors the attributes §3 lists for the Channel entity: role, lifecycle
state, handshake-confirmed flag, tx/rx key epoch counters, the optional
termination record, the last-net-error flag, the key-update in-flight
bookkeeping, and the stream-admission counters and limits. External
collaborators (stream map internals, handshake object, transports,
callbacks) are out of scope per §1 and are not represented. -/
structure QUIC_CHANNEL where
  is_server : Bool
  state : ChannelState
  handshake_confirmed : Bool
  terminate_cause : Option QUIC_TERMINATE_CAUSE
  net_error_flag : Bool
  tx_key_epoch : Nat
  rx_key_epoch : Nat
  /-- A local key rotation is mid-flight (started, not yet completed). -/
  txku_in_progress : Bool
  /-- All packets sent under the current send key phase are acknowledged. -/
  cur_phase_acked : Bool
  /-- Ordinal of the next locally initiated bidirectional stream. -/
  next_local_bidi : Nat
  /-- Ordinal of the next locally initiated unidirectional stream. -/
  next_local_uni : Nat
  /-- Configured maximum-streams limit for local bidirectional streams. -/
  max_local_bidi : Nat
  /-- Configured maximum-streams limit for local unidirectional streams. -/
  max_local_uni : Nat
  deriving DecidableEq, Repr

/-- Modelled from the spec: `ossl_quic_channel_new` (§3 Lifecycle, §6
Construction). A fresh channel starts in IDLE with no termination record,
handshake not confirmed, both key epochs zero, no rotation mid-flight, no
traffic outstanding under the current phase, and stream ordinals at zero.
The configured stream-count limits are construction inputs. -/
def ossl_quic_channel_new (is_server : Bool) (max_bidi max_uni : Nat) : QUIC_CHANNEL :=
  { is_server := is_server
    state := .idle
    handshake_confirmed := false
    terminate_cause := none
    net_error_flag := false
    tx_key_epoch := 0
    rx_key_epoch := 0
    txku_in_progress := false
    cur_phase_acked := true
    next_local_bidi := 0
    next_local_uni := 0
    max_local_bidi := max_bidi
    max_local_uni := max_uni }

/-- Modelled from the spec: `ossl_quic_channel_start` (§4.1; header lines
191-196). Requires state = IDLE; transitions to ACTIVE. Idempotent: any
call while not in IDLE is a silent no-op, never an error ("successive
calls are ignored"), so the returned flag is success in both cases. -/
def ossl_quic_channel_start (ch : QUIC_CHANNEL) : QUIC_CHANNEL × Bool :=
  if ch.state = .idle then
    ({ ch with state := .active }, true)
  else
    (ch, true)

/-- Modelled from the spec: `ossl_quic_channel_on_handshake_confirmed`
(§4.1). Sets the handshake-confirmed flag; does not change lifecycle
state. -/
def ossl_quic_channel_on_handshake_confirmed (ch : QUIC_CHANNEL) : QUIC_CHANNEL :=
  { ch with handshake_confirmed := true }

/-- Modelled from the spec: `ossl_quic_channel_local_close` (§4.1; header
lines 198-199). Valid only from ACTIVE: sets the Termination Record to
{origin=local, space=application, error_code=app_error_code} and
transitions to CLOSING. No-op if the channel is already terminating or
terminated (and, per §7 StateError, a silent no-op from any other
state). -/
def ossl_quic_channel_local_close (ch : QUIC_CHANNEL) (app_error_code : Nat) : QUIC_CHANNEL :=
  if ch.state = .active then
    { ch with
      state := .terminatingClosing
      terminate_cause := some
        { error_code := app_error_code, frame_type := 0, app := true, remote := false } }
  else
    ch

/-- Modelled from the spec: `ossl_quic_channel_raise_protocol_error` (§4.1;
header lines 206-218). Sets the Termination Record to {origin=local,
space=transport, error_code, frame_type} and transitions to CLOSING.
First-error-wins: a no-op once a Termination Record exists. The §4.1 state
diagram admits no IDLE→CLOSING edge, so per §7 StateError the call is also
a silent no-op outside ACTIVE. The reason string is a best-effort
diagnostic only and is not retained. -/
def ossl_quic_channel_raise_protocol_error (ch : QUIC_CHANNEL)
    (error_code frame_type : Nat) (_reason : String) : QUIC_CHANNEL :=
  if ch.terminate_cause = none ∧ ch.state = .active then
    { ch with
      state := .terminatingClosing
      terminate_cause := some
        { error_code := error_code, frame_type := frame_type, app := false, remote := false } }
  else
    ch

/-- Modelled from the spec: `ossl_quic_channel_on_remote_conn_close` (§4.1;
header lines 228-230). Valid from ACTIVE or CLOSING: sets the Termination
Record to {origin=remote, space=frame.space, error_code=frame.error_code,
frame_type=frame.type} and transitions to DRAINING. First-error-wins: the
call is ignored if a Termination Record already exists. -/
def ossl_quic_channel_on_remote_conn_close (ch : QUIC_CHANNEL)
    (f : OSSL_QUIC_FRAME_CONN_CLOSE) : QUIC_CHANNEL :=
  if (ch.state = .active ∨ ch.state = .terminatingClosing) ∧ ch.terminate_cause = none then
    { ch with
      state := .terminatingDraining
      terminate_cause := some
        { error_code := f.error_code, frame_type := f.frame_type
          app := f.is_app, remote := true } }
  else
    ch

/-- Modelled from the spec: the internal tick-driven terminating timer
(§4.1). While in CLOSING or DRAINING, the expiry of the bounded terminating
timeout triggers the final transition to TERMINATED; no further state
change is possible afterward. -/
def ch_on_terminating_timeout (ch : QUIC_CHANNEL) : QUIC_CHANNEL :=
  if ch.state = .terminatingClosing ∨ ch.state = .terminatingDraining then
    { ch with state := .terminated }
  else
    ch

/-- Modelled from the spec: the net-error path (§4.1, §7 NetworkError). A
fatal transport I/O condition forces an immediate transition to TERMINATED,
bypassing CLOSING/DRAINING, and records that the net-error path was taken
(queried by `ossl_quic_channel_net_error`). The §3 invariant requires a
Termination Record in TERMINATED, so if none exists yet a local
transport-space record is installed; the spec fixes no error code for it,
and 1 stands for the transport-space internal-error code. -/
def ch_raise_net_error (ch : QUIC_CHANNEL) : QUIC_CHANNEL :=
  { ch with
    state := .terminated
    net_error_flag := true
    terminate_cause :=
      match ch.terminate_cause with
      | some t => some t
      | none => some { error_code := 1, frame_type := 0, app := false, remote := false } }

/-- Modelled from the spec: `ossl_quic_channel_net_error` (header lines
219-223). Returns whether a permanent net error was detected. -/
def ossl_quic_channel_net_error (ch : QUIC_CHANNEL) : Bool :=
  ch.net_error_flag

/-- `ossl_quic_channel_is_term_any` (header line 269): 1 iff the channel is
terminating (CLOSING or DRAINING) or terminated. -/
def ossl_quic_channel_is_term_any (ch : QUIC_CHANNEL) : Bool :=
  ch.state = .terminatingClosing ∨ ch.state = .terminatingDraining ∨ ch.state = .terminated

/-- `ossl_quic_channel_is_terminated` (header line 272): 1 iff the channel
is in the TERMINATED state. -/
def ossl_quic_channel_is_terminated (ch : QUIC_CHANNEL) : Bool :=
  ch.state = .terminated

/-- `ossl_quic_channel_is_active` (header line 273): 1 iff the channel is
in the ACTIVE state. -/
def ossl_quic_channel_is_active (ch : QUIC_CHANNEL) : Bool :=
  ch.state = .active

/-- `ossl_quic_channel_is_handshake_confirmed` (header line 275). -/
def ossl_quic_channel_is_handshake_confirmed (ch : QUIC_CHANNEL) : Bool :=
  ch.handshake_confirmed

/-- `ossl_quic_channel_get_terminate_cause` (header lines 270-271): the
Termination Record, present exactly when one has been set. -/
def ossl_quic_channel_get_terminate_cause (ch : QUIC_CHANNEL) :
    Option QUIC_TERMINATE_CAUSE :=
  ch.terminate_cause

/-- `ossl_quic_channel_get_tx_key_epoch` (header line 345). -/
def ossl_quic_channel_get_tx_key_epoch (ch : QUIC_CHANNEL) : Nat :=
  ch.tx_key_epoch

/-- `ossl_quic_channel_get_rx_key_epoch` (header line 346). -/
def ossl_quic_channel_get_rx_key_epoch (ch : QUIC_CHANNEL) : Nat :=
  ch.rx_key_epoch

/-- Modelled from the spec: `ossl_quic_channel_trigger_txku` (§4.4; header
lines 348-349). Requires the handshake confirmed and all packets under the
current send key phase acknowledged; fails with boolean false, changing
nothing, if either precondition is unmet or a rotation is already
mid-flight. On success returns true, increments the tx epoch by exactly
one and marks the rotation mid-flight (it completes via the receive
path). -/
def ossl_quic_channel_trigger_txku (ch : QUIC_CHANNEL) : QUIC_CHANNEL × Bool :=
  if ch.handshake_confirmed ∧ ch.cur_phase_acked ∧ ¬ch.txku_in_progress then
    ({ ch with tx_key_epoch := ch.tx_key_epoch + 1, txku_in_progress := true }, true)
  else
    (ch, false)

/-- Modelled from the spec: completion of a mid-flight local key rotation,
driven by the receive-dispatch collaborator (§4.4); clears the mid-flight
flag, ending the eligibility window opened by the last rotation. -/
def ch_on_txku_done (ch : QUIC_CHANNEL) : QUIC_CHANNEL :=
  { ch with txku_in_progress := false }

/-- The stream identifier carrying a given ordinal, role and
directionality under the two-low-bit encoding of §3/§4.3: bit0 set iff the
initiator is the server, bit1 set iff the stream is unidirectional. -/
def streamIdOf (is_server is_uni : Bool) (ordinal : Nat) : Nat :=
  4 * ordinal + (if is_uni then 2 else 0) + (if is_server then 1 else 0)

/-- Modelled from the spec: `ossl_quic_channel_new_stream_local` (§4.3;
header lines 296-301). Computes the next legal stream identifier for the
channel's role and the requested directionality, checks it against the
62-bit identifier space and the configured maximum-streams limit, and on
success advances the ordinal counter and returns the identifier. Returns
an absent result on exhaustion; the failure is reported to the caller and
is not escalated to a protocol error. -/
def ossl_quic_channel_new_stream_local (ch : QUIC_CHANNEL) (is_uni : Bool) :
    QUIC_CHANNEL × Option Nat :=
  let ordinal := if is_uni then ch.next_local_uni else ch.next_local_bidi
  let limit := if is_uni then ch.max_local_uni else ch.max_local_bidi
  if ordinal < limit ∧ ordinal < streamOrdinalBound then
    (if is_uni then { ch with next_local_uni := ordinal + 1 }
     else { ch with next_local_bidi := ordinal + 1 },
     some (streamIdOf ch.is_server is_uni ordinal))
  else
    (ch, none)

/-- The channel operations and internal events that can change the
channel's state, drawn from §4 and §6 of the specification. Query
operations are pure reads and are omitted. -/
inductive ChEvent where
  | start
  | handshakeConfirmed
  | localClose (app_error_code : Nat)
  | raiseProtocolError (error_code frame_type : Nat) (reason : String)
  | remoteConnClose (f : OSSL_QUIC_FRAME_CONN_CLOSE)
  | terminatingTimeout
  | netError
  | triggerTxku
  | txkuDone
  | newStreamLocal (is_uni : Bool)
  deriving DecidableEq, Repr

/-- One step of the channel state machine: the effect of a single event on
the channel (for operations returning a value, the updated channel). -/
def chStep (ch : QUIC_CHANNEL) : ChEvent → QUIC_CHANNEL
  | .start => (ossl_quic_channel_start ch).1
  | .handshakeConfirmed => ossl_quic_channel_on_handshake_confirmed ch
  | .localClose aec => ossl_quic_channel_local_close ch aec
  | .raiseProtocolError ec ft r => ossl_quic_channel_raise_protocol_error ch ec ft r
  | .remoteConnClose f => ossl_quic_channel_on_remote_conn_close ch f
  | .terminatingTimeout => ch_on_terminating_timeout ch
  | .netError => ch_raise_net_error ch
  | .triggerTxku => (ossl_quic_channel_trigger_txku ch).1
  | .txkuDone => ch_on_txku_done ch
  | .newStreamLocal u => (ossl_quic_channel_new_stream_local ch u).1

/-- The channel reached by running a sequence of events from a given
channel. -/
def chRun (ch : QUIC_CHANNEL) (evs : List ChEvent) : QUIC_CHANNEL :=
  evs.foldl chStep ch

/-- The three calls that can begin termination of a channel, with their
arguments. -/
inductive TermCall where
  | localClose (app_error_code : Nat)
  | raiseProtocolError (error_code frame_type : Nat) (reason : String)
  | remoteConnClose (f : OSSL_QUIC_FRAME_CONN_CLOSE)
  deriving DecidableEq, Repr

/-- The effect of one termination call on the channel. -/
def applyTermCall (ch : QUIC_CHANNEL) : TermCall → QUIC_CHANNEL
  | .localClose aec => ossl_quic_channel_local_close ch aec
  | .raiseProtocolError ec ft r => ossl_quic_channel_raise_protocol_error ch ec ft r
  | .remoteConnClose f => ossl_quic_channel_on_remote_conn_close ch f

/-- The Termination Record produced by a termination call when it is the
first to execute on a channel in ACTIVE state. -/
def termCallCause : TermCall → QUIC_TERMINATE_CAUSE
  | .localClose aec => { error_code := aec, frame_type := 0, app := true, remote := false }
  | .raiseProtocolError ec ft _ =>
      { error_code := ec, frame_type := ft, app := false, remote := false }
  | .remoteConnClose f =>
      { error_code := f.error_code, frame_type := f.frame_type, app := f.is_app, remote := true }

/-- A channel on which termination has already begun: a Termination Record
exists and the state is no longer ACTIVE (nor IDLE). -/
def TermBegun (ch : QUIC_CHANNEL) : Prop :=
  ch.terminate_cause ≠ none ∧ ch.state ≠ .active

/-- The §3 invariant on the Termination Record: a record exists if and only
if the channel is in CLOSING, DRAINING or TERMINATED. -/
def TermRecordInv (ch : QUIC_CHANNEL) : Prop :=
  ch.terminate_cause ≠ none ↔
    (ch.state = .terminatingClosing ∨ ch.state = .terminatingDraining ∨
      ch.state = .terminated)

/-- Whether the second state is the immediate successor of the first along
the nominal lifecycle chain IDLE → ACTIVE → CLOSING → DRAINING →
TERMINATED. -/
def chainSucc : ChannelState → ChannelState → Bool
  | .idle, .active => true
  | .active, .terminatingClosing => true
  | .terminatingClosing, .terminatingDraining => true
  | .terminatingDraining, .terminated => true
  | _, _ => false

/-- Whether an event is a remote CONNECTION_CLOSE delivery. -/
def ChEvent.isRemoteConnClose : ChEvent → Bool
  | .remoteConnClose _ => true
  | _ => false

/-- The single-step transitions permitted by the claim: stay put, advance
one step along the chain, skip from ACTIVE to DRAINING on a remote close,
or jump to TERMINATED on a fatal net error. -/
def claimC2Allowed (s s' : ChannelState) (ev : ChEvent) : Prop :=
  s' = s ∨ chainSucc s s' = true ∨
    (s = .active ∧ s' = .terminatingDraining ∧ ev.isRemoteConnClose = true) ∨
    (s' = .terminated ∧ ev = .netError)

/-- The claim, as stated: along every run from a fresh channel, every step
is one of the transitions of `claimC2Allowed`. -/
def ClaimC2 : Prop :=
  ∀ (is_server : Bool) (mb mu : Nat) (evs : List ChEvent) (ev : ChEvent),
    claimC2Allowed (chRun (ossl_quic_channel_new is_server mb mu) evs).state
      (chStep (chRun (ossl_quic_channel_new is_server mb mu) evs) ev).state ev

/-- The transitions permitted by the amended claim: additionally, the
terminating timeout may take CLOSING directly to TERMINATED (skipping
DRAINING), as §4.1's terminating timer prescribes. -/
def stepAllowedAmended (s s' : ChannelState) (ev : ChEvent) : Prop :=
  s' = s ∨ chainSucc s s' = true ∨
    (s = .active ∧ s' = .terminatingDraining ∧ ev.isRemoteConnClose = true) ∨
    (s' = .terminated ∧ ev = .netError) ∨
    (s = .terminatingClosing ∧ s' = .terminated ∧ ev = .terminatingTimeout)

/-- A concrete channel in ACTIVE state with no Termination Record: a fresh
server channel after `start()`. -/
def chActiveEx : QUIC_CHANNEL :=
  (ossl_quic_channel_start (ossl_quic_channel_new true 8 8)).1

/-- Scenario A of §8: a client channel after `start()`,
`on_handshake_confirmed()` and `local_close(0)`. -/
def chScenarioA : QUIC_CHANNEL :=
  ossl_quic_channel_local_close
    (ossl_quic_channel_on_handshake_confirmed
      (ossl_quic_channel_start (ossl_quic_channel_new false 8 8)).1) 0

theorem applyTermCall_of_termBegun (ch : QUIC_CHANNEL) (c : TermCall)
    (h : TermBegun ch) : applyTermCall ch c = ch := by
  obtain ⟨hc, hs⟩ := h
  cases c with
  | localClose aec =>
      simp [applyTermCall, ossl_quic_channel_local_close, hs]
  | raiseProtocolError ec ft r =>
      simp [applyTermCall, ossl_quic_channel_raise_protocol_error, hc]
  | remoteConnClose f =>
      simp [applyTermCall, ossl_quic_channel_on_remote_conn_close, hc]

theorem applyTermCall_first (ch : QUIC_CHANNEL) (c : TermCall)
    (hs : ch.state = .active) (hc : ch.terminate_cause = none) :
    (applyTermCall ch c).terminate_cause = some (termCallCause c) ∧
      TermBegun (applyTermCall ch c) := by
  cases c with
  | localClose aec =>
      simp [applyTermCall, ossl_quic_channel_local_close, hs, termCallCause, TermBegun]
  | raiseProtocolError ec ft r =>
      simp [applyTermCall, ossl_quic_channel_raise_protocol_error, hs, hc, termCallCause,
        TermBegun]
  | remoteConnClose f =>
      simp [applyTermCall, ossl_quic_channel_on_remote_conn_close, hs, hc, termCallCause,
        TermBegun]

theorem foldl_applyTermCall_of_termBegun (cs : List TermCall) (ch : QUIC_CHANNEL)
    (h : TermBegun ch) : cs.foldl applyTermCall ch = ch := by
  induction cs with
  | nil => rfl
  | cons c cs ih =>
      rw [List.foldl_cons, applyTermCall_of_termBegun ch c h]
      exact ih

/-- C1: for every sequence of local_close / raise_protocol_error /
on_remote_conn_close calls on a single channel in a state where termination
can begin (ACTIVE, no Termination Record yet), the Termination Record after
all calls complete equals the cause produced by the first call to execute,
and every later call is a no-op leaving the channel — in particular the
record — unchanged. -/
theorem claim_C1_first_error_wins (ch : QUIC_CHANNEL) (c : TermCall) (cs : List TermCall)
    (hs : ch.state = .active) (hc : ch.terminate_cause = none) :
    cs.foldl applyTermCall (applyTermCall ch c) = applyTermCall ch c ∧
      (cs.foldl applyTermCall (applyTermCall ch c)).terminate_cause =
        some (termCallCause c) := by
  obtain ⟨h1, h2⟩ := applyTermCall_first ch c hs hc
  have hfix := foldl_applyTermCall_of_termBegun cs (applyTermCall ch c) h2
  exact ⟨hfix, by rw [hfix, h1]⟩

/-- Witness for C1 at a concrete channel and call sequence: local close
with code 7 first, then a protocol error and a remote close, leaving the
record at the local application-space cause 7. -/
theorem claim_C1_first_error_wins_witness :
    [TermCall.raiseProtocolError 3 4 "x",
        TermCall.remoteConnClose { is_app := true, error_code := 9, frame_type := 2 }].foldl
        applyTermCall (applyTermCall chActiveEx (TermCall.localClose 7)) =
      applyTermCall chActiveEx (TermCall.localClose 7) ∧
      ([TermCall.raiseProtocolError 3 4 "x",
          TermCall.remoteConnClose { is_app := true, error_code := 9, frame_type := 2 }].foldl
          applyTermCall (applyTermCall chActiveEx (TermCall.localClose 7))).terminate_cause =
        some (termCallCause (TermCall.localClose 7)) :=
  claim_C1_first_error_wins chActiveEx (TermCall.localClose 7)
    [TermCall.raiseProtocolError 3 4 "x",
      TermCall.remoteConnClose { is_app := true, error_code := 9, frame_type := 2 }]
    (by decide) (by decide)

/-- C2 counterexample: the claim's list of permitted skips is incomplete.
On a fresh client channel, after `start()` and `local_close(0)` the state
is CLOSING; when the terminating timeout then expires, the state jumps
directly to TERMINATED, skipping DRAINING — a transition that is neither a
chain step, nor the remote-close skip, nor a net-error jump. -/
theorem claim_C2_counterexample : ¬ ClaimC2 := fun h =>
  absurd (h false 0 0 [ChEvent.start, ChEvent.localClose 0] ChEvent.terminatingTimeout)
    (by unfold claimC2Allowed; decide)

/-- C2 amended: the lifecycle state never regresses (its numeric value is
non-decreasing under every event), and every step is either a stay, a
single chain step, the ACTIVE→DRAINING skip on a remote close, a jump to
TERMINATED on a fatal net error, or the CLOSING→TERMINATED skip when the
terminating timeout expires. -/
theorem claim_C2_amended_forward_only (ch : QUIC_CHANNEL) (ev : ChEvent) :
    stepAllowedAmended ch.state (chStep ch ev).state ev ∧
      ch.state.toNat ≤ (chStep ch ev).state.toNat := by
  cases ev <;> cases hs : ch.state <;>
    simp_all [chStep, stepAllowedAmended, chainSucc, ChannelState.toNat,
      ChEvent.isRemoteConnClose, ossl_quic_channel_start,
      ossl_quic_channel_on_handshake_confirmed, ossl_quic_channel_local_close,
      ossl_quic_channel_raise_protocol_error, ossl_quic_channel_on_remote_conn_close,
      ch_on_terminating_timeout, ch_raise_net_error, ossl_quic_channel_trigger_txku,
      ch_on_txku_done, ossl_quic_channel_new_stream_local,
      QUIC_CHANNEL_STATE_IDLE, QUIC_CHANNEL_STATE_ACTIVE,
      QUIC_CHANNEL_STATE_TERMINATING_CLOSING, QUIC_CHANNEL_STATE_TERMINATING_DRAINING,
      QUIC_CHANNEL_STATE_TERMINATED] <;>
    split_ifs <;> simp_all

theorem TermRecordInv_step (ch : QUIC_CHANNEL) (ev : ChEvent)
    (h : TermRecordInv ch) : TermRecordInv (chStep ch ev) := by
  cases ev <;> cases hc : ch.terminate_cause <;> cases hs : ch.state <;>
    simp_all [chStep, TermRecordInv, ossl_quic_channel_start,
      ossl_quic_channel_on_handshake_confirmed, ossl_quic_channel_local_close,
      ossl_quic_channel_raise_protocol_error, ossl_quic_channel_on_remote_conn_close,
      ch_on_terminating_timeout, ch_raise_net_error, ossl_quic_channel_trigger_txku,
      ch_on_txku_done, ossl_quic_channel_new_stream_local] <;>
    split_ifs <;> simp_all

theorem TermRecordInv_new (is_server : Bool) (mb mu : Nat) :
    TermRecordInv (ossl_quic_channel_new is_server mb mu) := by
  simp [TermRecordInv, ossl_quic_channel_new]

theorem TermRecordInv_chRun (evs : List ChEvent) (ch : QUIC_CHANNEL)
    (h : TermRecordInv ch) : TermRecordInv (chRun ch evs) := by
  induction evs generalizing ch with
  | nil => exact h
  | cons e es ih =>
      rw [chRun, List.foldl_cons]
      exact ih (chStep ch e) (TermRecordInv_step ch e h)

/-- C3: on every channel reachable from construction by any event sequence,
a Termination Record exists if and only if the lifecycle state is CLOSING,
DRAINING or TERMINATED; and every single channel operation preserves this
biconditional. -/
theorem claim_C3_term_record_iff_terminating :
    (∀ (is_server : Bool) (mb mu : Nat) (evs : List ChEvent),
        TermRecordInv (chRun (ossl_quic_channel_new is_server mb mu) evs)) ∧
      (∀ (ch : QUIC_CHANNEL) (ev : ChEvent), TermRecordInv ch → TermRecordInv (chStep ch ev)) :=
  ⟨fun is_server mb mu evs =>
      TermRecordInv_chRun evs _ (TermRecordInv_new is_server mb mu),
    TermRecordInv_step⟩

/-- Witness for C3's preservation conjunct at a concrete input: the
invariant holds on the concrete ACTIVE channel and is carried across a
local close. -/
theorem claim_C3_term_record_iff_terminating_witness :
    TermRecordInv (chStep chActiveEx (ChEvent.localClose 0)) :=
  claim_C3_term_record_iff_terminating.2 chActiveEx (ChEvent.localClose 0)
    (by unfold TermRecordInv; decide)

/-- C4: `local_close(app_error_code)` on an ACTIVE channel sets the
Termination Record to {origin=local, space=application, error_code} and
transitions to CLOSING; on a channel already terminating or terminated it
is a no-op. In particular, Scenario A (client channel, `start()`,
`on_handshake_confirmed()`, `local_close(0)`) leaves `is_term_any()` true
and a Termination Record {origin=local, space=application,
error_code=0}. -/
theorem claim_C4_local_close (ch : QUIC_CHANNEL) (aec : Nat) :
    (ch.state = .active →
      ossl_quic_channel_local_close ch aec =
        { ch with
          state := .terminatingClosing
          terminate_cause := some
            { error_code := aec, frame_type := 0, app := true, remote := false } }) ∧
    (ossl_quic_channel_is_term_any ch = true →
      ossl_quic_channel_local_close ch aec = ch) ∧
    (ossl_quic_channel_is_term_any chScenarioA = true ∧
      ossl_quic_channel_get_terminate_cause chScenarioA =
        some { error_code := 0, frame_type := 0, app := true, remote := false }) := by
  refine ⟨fun hs => ?_, fun ht => ?_, by decide, by decide⟩
  · simp [ossl_quic_channel_local_close, hs]
  · have hs : ch.state ≠ .active := by
      simp only [ossl_quic_channel_is_term_any, decide_eq_true_eq] at ht
      rcases ht with h | h | h <;> simp [h]
    simp [ossl_quic_channel_local_close, hs]

/-- Witness for C4 at concrete inputs: the ACTIVE channel transition and
the no-op on the already-closing Scenario A channel. -/
theorem claim_C4_local_close_witness :
    ossl_quic_channel_local_close chActiveEx 5 =
      { chActiveEx with
        state := .terminatingClosing
        terminate_cause := some
          { error_code := 5, frame_type := 0, app := true, remote := false } } ∧
      ossl_quic_channel_local_close chScenarioA 9 = chScenarioA :=
  ⟨(claim_C4_local_close chActiveEx 5).1 (by decide),
    (claim_C4_local_close chScenarioA 9).2.1 (by decide)⟩

/-- C5: `on_remote_conn_close(frame)` on a channel in ACTIVE or CLOSING
state with no Termination Record yet sets the record to {origin=remote,
space=frame.space, error_code=frame.error_code, frame_type=frame.type} and
transitions to DRAINING; if a Termination Record already exists the call is
ignored entirely. -/
theorem claim_C5_remote_conn_close (ch : QUIC_CHANNEL) (f : OSSL_QUIC_FRAME_CONN_CLOSE) :
    ((ch.state = .active ∨ ch.state = .terminatingClosing) → ch.terminate_cause = none →
      ossl_quic_channel_on_remote_conn_close ch f =
        { ch with
          state := .terminatingDraining
          terminate_cause := some
            { error_code := f.error_code, frame_type := f.frame_type
              app := f.is_app, remote := true } }) ∧
    (ch.terminate_cause ≠ none → ossl_quic_channel_on_remote_conn_close ch f = ch) := by
  constructor
  · intro hs hc
    simp [ossl_quic_channel_on_remote_conn_close, hs, hc]
  · intro hc
    simp [ossl_quic_channel_on_remote_conn_close, hc]

/-- Witness for C5 at concrete inputs: a remote close on the ACTIVE channel
installs the remote record and drains; a second one on the Scenario A
channel (record already present) is ignored. -/
theorem claim_C5_remote_conn_close_witness :
    ossl_quic_channel_on_remote_conn_close chActiveEx
        { is_app := false, error_code := 10, frame_type := 0 } =
      { chActiveEx with
        state := .terminatingDraining
        terminate_cause := some
          { error_code := 10, frame_type := 0, app := false, remote := true } } ∧
      ossl_quic_channel_on_remote_conn_close chScenarioA
        { is_app := false, error_code := 10, frame_type := 0 } = chScenarioA :=
  ⟨(claim_C5_remote_conn_close chActiveEx
        { is_app := false, error_code := 10, frame_type := 0 }).1 (by decide) (by decide),
    (claim_C5_remote_conn_close chScenarioA
        { is_app := false, error_code := 10, frame_type := 0 }).2 (by decide)⟩

/-- C6: `start()` on an IDLE channel transitions it to ACTIVE and returns
success; on a non-IDLE channel it changes nothing and still returns
success; hence calling it twice from IDLE transitions to ACTIVE exactly
once and the second call returns success. -/
theorem claim_C6_start_idempotent (ch : QUIC_CHANNEL) :
    (ch.state = .idle →
      ossl_quic_channel_start ch = ({ ch with state := .active }, true)) ∧
    (ch.state ≠ .idle → ossl_quic_channel_start ch = (ch, true)) ∧
    (ch.state = .idle →
      (ossl_quic_channel_start ch).1.state = .active ∧
        ossl_quic_channel_start (ossl_quic_channel_start ch).1 =
          ((ossl_quic_channel_start ch).1, true)) := by
  refine ⟨fun hs => ?_, fun hs => ?_, fun hs => ?_⟩
  · simp [ossl_quic_channel_start, hs]
  · simp [ossl_quic_channel_start, hs]
  · simp [ossl_quic_channel_start, hs]

/-- Witness for C6 at a concrete input: a fresh client channel, started
twice. -/
theorem claim_C6_start_idempotent_witness :
    (ossl_quic_channel_start (ossl_quic_channel_new false 0 0)).1.state = .active ∧
      ossl_quic_channel_start
          (ossl_quic_channel_start (ossl_quic_channel_new false 0 0)).1 =
        ((ossl_quic_channel_start (ossl_quic_channel_new false 0 0)).1, true) :=
  (claim_C6_start_idempotent (ossl_quic_channel_new false 0 0)).2.2 (by decide)

/-- C7: `trigger_txku()` returns false and changes nothing (no error, no
change to the termination state) whenever the handshake is not confirmed,
some packet of the current send key phase is unacknowledged, or a rotation
is already mid-flight; when eligible it returns true, the tx key epoch
reported by `get_tx_key_epoch` increases by exactly one, and it cannot
succeed again until the mid-flight rotation completes (at most once per
eligible window). -/
theorem claim_C7_trigger_txku (ch : QUIC_CHANNEL) :
    ((ch.handshake_confirmed = false ∨ ch.cur_phase_acked = false ∨
        ch.txku_in_progress = true) →
      ossl_quic_channel_trigger_txku ch = (ch, false)) ∧
    (ch.handshake_confirmed = true → ch.cur_phase_acked = true →
      ch.txku_in_progress = false →
      (ossl_quic_channel_trigger_txku ch).2 = true ∧
        ossl_quic_channel_get_tx_key_epoch (ossl_quic_channel_trigger_txku ch).1 =
          ossl_quic_channel_get_tx_key_epoch ch + 1 ∧
        ossl_quic_channel_trigger_txku (ossl_quic_channel_trigger_txku ch).1 =
          ((ossl_quic_channel_trigger_txku ch).1, false)) := by
  constructor
  · intro hfail
    rcases hfail with h | h | h <;>
      simp [ossl_quic_channel_trigger_txku, h]
  · intro h1 h2 h3
    simp [ossl_quic_channel_trigger_txku, h1, h2, h3,
      ossl_quic_channel_get_tx_key_epoch]

/-- Witness for C7 at concrete inputs: the fresh channel (handshake not
confirmed) fails; the confirmed channel succeeds, bumps the epoch from 0
to 1, and an immediate retry fails. -/
theorem claim_C7_trigger_txku_witness :
    ossl_quic_channel_trigger_txku (ossl_quic_channel_new false 0 0) =
        (ossl_quic_channel_new false 0 0, false) ∧
      (ossl_quic_channel_trigger_txku
          (ossl_quic_channel_on_handshake_confirmed chActiveEx)).2 = true ∧
      ossl_quic_channel_get_tx_key_epoch
          (ossl_quic_channel_trigger_txku
            (ossl_quic_channel_on_handshake_confirmed chActiveEx)).1 =
        ossl_quic_channel_get_tx_key_epoch
            (ossl_quic_channel_on_handshake_confirmed chActiveEx) + 1 ∧
      ossl_quic_channel_trigger_txku
          (ossl_quic_channel_trigger_txku
            (ossl_quic_channel_on_handshake_confirmed chActiveEx)).1 =
        ((ossl_quic_channel_trigger_txku
            (ossl_quic_channel_on_handshake_confirmed chActiveEx)).1, false) :=
  ⟨(claim_C7_trigger_txku (ossl_quic_channel_new false 0 0)).1 (Or.inl (by decide)),
    (claim_C7_trigger_txku (ossl_quic_channel_on_handshake_confirmed chActiveEx)).2
      (by decide) (by decide) (by decide)⟩

/-- C8: on a server-role channel with identifiers and limits available,
`new_stream_local(false)` then `new_stream_local(true)` return two stream
identifiers whose low bits (bit0) both encode server-initiated, matching
the role, and whose directionality bits (bit1) differ; on exhaustion of
the identifier space or the configured stream-count limit the call returns
an absent result, leaves the channel unchanged and in particular raises no
protocol error (the Termination Record is untouched). -/
theorem claim_C8_new_stream_local (ch : QUIC_CHANNEL) :
    (ch.is_server = true →
      ch.next_local_bidi < ch.max_local_bidi →
      ch.next_local_bidi < streamOrdinalBound →
      ch.next_local_uni < ch.max_local_uni →
      ch.next_local_uni < streamOrdinalBound →
      ∃ id1 id2,
        (ossl_quic_channel_new_stream_local ch false).2 = some id1 ∧
          (ossl_quic_channel_new_stream_local
            (ossl_quic_channel_new_stream_local ch false).1 true).2 = some id2 ∧
          id1 % 2 = 1 ∧ id2 % 2 = 1 ∧ id1 / 2 % 2 = 0 ∧ id2 / 2 % 2 = 1) ∧
    (∀ is_uni : Bool,
      ¬((if is_uni then ch.next_local_uni else ch.next_local_bidi) <
          (if is_uni then ch.max_local_uni else ch.max_local_bidi) ∧
        (if is_uni then ch.next_local_uni else ch.next_local_bidi) < streamOrdinalBound) →
      ossl_quic_channel_new_stream_local ch is_uni = (ch, none) ∧
        (ossl_quic_channel_new_stream_local ch is_uni).1.terminate_cause =
          ch.terminate_cause) := by
  constructor
  · intro hsrv h1 h2 h3 h4
    refine ⟨streamIdOf true false ch.next_local_bidi,
      streamIdOf true true ch.next_local_uni, ?_, ?_, ?_, ?_, ?_, ?_⟩
    · simp [ossl_quic_channel_new_stream_local, h1, h2, hsrv]
    · simp [ossl_quic_channel_new_stream_local, h1, h2, h3, h4, hsrv]
    · simp [streamIdOf]; omega
    · simp [streamIdOf]; omega
    · simp [streamIdOf]; omega
    · simp [streamIdOf]; omega
  · intro is_uni hex
    cases is_uni <;> simp only [Bool.false_eq_true, if_false, if_true] at hex <;>
      simp [ossl_quic_channel_new_stream_local, hex]

/-- Witness for C8 at concrete inputs: a fresh server channel with limits 4
yields identifiers with the claimed low bits, and a server channel whose
bidirectional limit is zero gets an absent result without touching the
termination record. -/
theorem claim_C8_new_stream_local_witness :
    (∃ id1 id2,
      (ossl_quic_channel_new_stream_local (ossl_quic_channel_new true 4 4) false).2 =
          some id1 ∧
        (ossl_quic_channel_new_stream_local
          (ossl_quic_channel_new_stream_local
            (ossl_quic_channel_new true 4 4) false).1 true).2 = some id2 ∧
        id1 % 2 = 1 ∧ id2 % 2 = 1 ∧ id1 / 2 % 2 = 0 ∧ id2 / 2 % 2 = 1) ∧
      ossl_quic_channel_new_stream_local (ossl_quic_channel_new true 0 4) false =
        (ossl_quic_channel_new true 0 4, none) :=
  ⟨(claim_C8_new_stream_local (ossl_quic_channel_new true 4 4)).1 (by decide)
      (by decide) (by decide) (by decide) (by decide),
    ((claim_C8_new_stream_local (ossl_quic_channel_new true 0 4)).2 false
      (by decide)).1⟩

/-- C10: for every channel, the lifecycle state is exactly one of the five
states corresponding to the `QUIC_CHANNEL_STATE_*` constants (it occurs
exactly once in their enumeration); `is_terminated() = 1` implies
`is_term_any() = 1`; and `is_active() = 1` implies `is_term_any() = 0`. -/
theorem claim_C10_query_consistency (ch : QUIC_CHANNEL) :
    ([ChannelState.idle, ChannelState.active, ChannelState.terminatingClosing,
        ChannelState.terminatingDraining, ChannelState.terminated].count ch.state = 1) ∧
      (ossl_quic_channel_is_terminated ch = true →
        ossl_quic_channel_is_term_any ch = true) ∧
      (ossl_quic_channel_is_active ch = true →
        ossl_quic_channel_is_term_any ch = false) := by
  obtain ⟨sv, st, hcf, tc, nef, te, re, tip, cpa, nb, nu, mb, mu⟩ := ch
  cases st <;>
    simp [ossl_quic_channel_is_terminated, ossl_quic_channel_is_term_any,
      ossl_quic_channel_is_active, List.count_cons, List.count_nil]

/-- Witness for C10 at concrete inputs: a terminated channel (net-error
path) satisfies the first implication, the ACTIVE channel the second. -/
theorem claim_C10_query_consistency_witness :
    ossl_quic_channel_is_term_any (ch_raise_net_error chActiveEx) = true ∧
      ossl_quic_channel_is_term_any chActiveEx = false :=
  ⟨(claim_C10_query_consistency (ch_raise_net_error chActiveEx)).2.1 (by decide),
    (claim_C10_query_consistency chActiveEx).2.2 (by decide)⟩
